import Mathlib

/-!
Verification of the rectangle-geometry and controller layer of the
`sign-pdf-for-free` application (`src/pdf_sig/layout.py`,
`src/pdf_sig/controllers.py`, `src/pdf_sig/operations.py`).

Coordinates are modelled by exact rationals (`ℚ`); the Python floats carry
out the same affine arithmetic up to rounding.  A PyMuPDF `fitz.Rect` is
four scalars (x0, y0, x1, y1).  Python `None`-able fields become `Option`,
raised exceptions become explicit error results, and the in-place mutation
of controller objects becomes functional state passing.
-/

namespace PdfSig

/-- A rectangle: four scalars (x0, y0, x1, y1), as in `fitz.Rect`. -/
@[ext]
structure Rect where
  x0 : ℚ
  y0 : ℚ
  x1 : ℚ
  y1 : ℚ
deriving DecidableEq, Repr

/-- `rect.width` of a (valid, x0 ≤ x1) `fitz.Rect`: `x1 - x0`. -/
def Rect.width (r : Rect) : ℚ := r.x1 - r.x0

/-- `rect.height` of a (valid, y0 ≤ y1) `fitz.Rect`: `y1 - y0`. -/
def Rect.height (r : Rect) : ℚ := r.y1 - r.y0

/-- Python's two-argument `max` on rationals, written with `if` so that the
definition evaluates on concrete inputs. -/
def pymax (a b : ℚ) : ℚ := if a < b then b else a

/-- Python's two-argument `min` on rationals, written with `if` so that the
definition evaluates on concrete inputs. -/
def pymin (a b : ℚ) : ℚ := if b < a then b else a

/-- Python's two-argument `min` on integers. -/
def pyminZ (a b : ℤ) : ℤ := if b < a then b else a

/-- `layout.clamp_rect(rect, bounds)`: slide the rectangle left/up when it
overflows the bottom-right of `bounds`, then slide it right/down when its
top-left lies outside `bounds`.  The in-place field mutations of the Python
code become record updates. -/
def clamp_rect (rect : Rect) (bounds : Rect) : Rect :=
  let dx := pymax 0 (rect.x1 - bounds.x1)
  let dy := pymax 0 (rect.y1 - bounds.y1)
  let c : Rect := ⟨rect.x0 - dx, rect.y0 - dy, rect.x1 - dx, rect.y1 - dy⟩
  let c : Rect :=
    if c.x0 < bounds.x0 then { c with x1 := c.x1 + (bounds.x0 - c.x0), x0 := bounds.x0 } else c
  let c : Rect :=
    if c.y0 < bounds.y0 then { c with y1 := c.y1 + (bounds.y0 - c.y0), y0 := bounds.y0 } else c
  c

/-- `layout.canvas_to_pdf(x, y, page_rect, page_scale)`. -/
def canvas_to_pdf (x y : ℚ) (page_rect : Rect) (page_scale : ℚ × ℚ) : ℚ × ℚ :=
  (x * page_scale.1 + page_rect.x0, y * page_scale.2 + page_rect.y0)

/-- `layout.pdf_rect_to_canvas_rect(rect, page_rect, page_scale)`. -/
def pdf_rect_to_canvas_rect (rect : Rect) (page_rect : Rect) (page_scale : ℚ × ℚ) :
    ℚ × ℚ × ℚ × ℚ :=
  ((rect.x0 - page_rect.x0) / page_scale.1,
   (rect.y0 - page_rect.y0) / page_scale.2,
   (rect.x1 - page_rect.x0) / page_scale.1,
   (rect.y1 - page_rect.y0) / page_scale.2)

/-- `layout.new_signature_rect(canvas_x, canvas_y, page_rect, page_scale,
image_size, max_width_points)`.  `image_size` is the image's pixel size; the
Python truthiness guard `if image_size[0]` makes the aspect default to 1.0
when the image width is 0. -/
def new_signature_rect (canvas_x canvas_y : ℚ) (page_rect : Rect)
    (page_scale : ℚ × ℚ) (image_size : ℕ × ℕ) (max_width_points : ℚ) : Rect :=
  let width := pymax 10 (pymin max_width_points page_rect.width)
  let aspect : ℚ := if image_size.1 ≠ 0 then (image_size.2 : ℚ) / (image_size.1 : ℚ) else 1
  let height := width * aspect
  let p := canvas_to_pdf canvas_x canvas_y page_rect page_scale
  let rect : Rect := ⟨p.1, p.2, p.1 + width, p.2 + height⟩
  clamp_rect rect page_rect

/-- `controllers.SignatureController`: the signature image path, the placed
rectangle (PDF space) and its page, all `None`-able.  `max_width_points`
defaults to `DEFAULT_MAX_SIGNATURE_WIDTH = 200.0`. -/
structure SignatureController where
  max_width_points : ℚ
  image_path : Option String
  rect : Option Rect
  page_index : Option ℕ
deriving DecidableEq, Repr

/-- `SignatureController.reset()`. -/
def SignatureController.reset (c : SignatureController) : SignatureController :=
  { c with image_path := none, rect := none, page_index := none }

/-- `SignatureController.set_image(image_path)`. -/
def SignatureController.set_image (c : SignatureController) (image_path : String) :
    SignatureController :=
  { c with image_path := some image_path, rect := none, page_index := none }

/-- `SignatureController.place_on_page(...)`: computes the rectangle via
`new_signature_rect` with the controller's `max_width_points`, records it
with the page index, and returns it. -/
def SignatureController.place_on_page (c : SignatureController)
    (canvas_x canvas_y : ℚ) (page_index : ℕ) (page_rect : Rect)
    (page_scale : ℚ × ℚ) (image_size : ℕ × ℕ) : SignatureController × Rect :=
  let rect := new_signature_rect canvas_x canvas_y page_rect page_scale image_size
    c.max_width_points
  ({ c with rect := some rect, page_index := some page_index }, rect)

/-- `SignatureController.move_to(...)`: `None` when no rectangle is placed
(the Python guard `if not self.rect`); otherwise translate the placed
rectangle so that its top-left is the canvas point converted to PDF space,
then clamp to page bounds. -/
def SignatureController.move_to (c : SignatureController) (canvas_x canvas_y : ℚ)
    (page_rect : Rect) (page_scale : ℚ × ℚ) : SignatureController × Option Rect :=
  match c.rect with
  | none => (c, none)
  | some r =>
    let width := r.width
    let height := r.height
    let x_pdf := canvas_x * page_scale.1 + page_rect.x0
    let y_pdf := canvas_y * page_scale.2 + page_rect.y0
    let rect : Rect := ⟨x_pdf, y_pdf, x_pdf + width, y_pdf + height⟩
    let newRect := clamp_rect rect page_rect
    ({ c with rect := some newRect }, some newRect)

/-- `SignatureController.resize(handle, pdf_x, pdf_y, page_rect, min_width,
min_height)` (Python defaults: `min_width = min_height = 20`): `None` when
no rectangle is placed; otherwise the edge named by `handle` is updated and
the result clamped to page bounds. -/
def SignatureController.resize (c : SignatureController) (handle : String)
    (pdf_x pdf_y : ℚ) (page_rect : Rect) (min_width min_height : ℚ) :
    SignatureController × Option Rect :=
  match c.rect with
  | none => (c, none)
  | some r0 =>
    let rect : Rect :=
      if handle = "n" then { r0 with y0 := pymin pdf_y (r0.y1 - min_height) }
      else if handle = "s" then { r0 with y1 := pymax pdf_y (r0.y0 + min_height) }
      else if handle = "w" then { r0 with x0 := pymin pdf_x (r0.x1 - min_width) }
      else if handle = "e" then { r0 with x1 := pymax pdf_x (r0.x0 + min_width) }
      else r0
    let newRect := clamp_rect rect page_rect
    ({ c with rect := some newRect }, some newRect)

/-- `controllers.DocumentController`: the open document abstracted to its
page count (`len(doc)` is all the controller observes), the current file
path, and the page index (a Python `int`). -/
structure DocumentController where
  doc : Option ℕ
  current_file : Option String
  page_index : ℤ
deriving DecidableEq, Repr

/-- `DocumentController.page_count`: `len(self.doc) if self.doc else 0`.
An open `fitz.Document` object is treated as truthy. -/
def DocumentController.page_count (c : DocumentController) : ℕ :=
  match c.doc with
  | some n => n
  | none => 0

/-- `DocumentController.open(path)`, with the result of the injected
`pdf_opener(path)` call passed in explicitly: `Except.error` is a raised
exception, in which case none of the assignments run. -/
def DocumentController.openDoc (c : DocumentController) (path : String)
    (opened : Except String ℕ) : DocumentController × Except String ℕ :=
  match opened with
  | .error e => (c, .error e)
  | .ok doc => ({ doc := some doc, current_file := some path, page_index := 0 }, .ok doc)

/-- `DocumentController.reload(path)`: `self.open(path)` with a raised
`RuntimeError` swallowed into `None` (all PyMuPDF open failures derive from
`RuntimeError`). -/
def DocumentController.reload (c : DocumentController) (path : String)
    (opened : Except String ℕ) : DocumentController × Option ℕ :=
  match c.openDoc path opened with
  | (c2, .ok doc) => (c2, some doc)
  | (_, .error _) => (c, none)

/-- `DocumentController.close()`: releases the document and resets all
fields (`doc.close()` itself is a library side effect with no state here). -/
def DocumentController.close (_ : DocumentController) : DocumentController :=
  { doc := none, current_file := none, page_index := 0 }

/-- `DocumentController.next_page()`. -/
def DocumentController.next_page (c : DocumentController) : DocumentController :=
  if c.doc.isSome ∧ c.page_index < (c.page_count : ℤ) - 1 then
    { c with page_index := c.page_index + 1 }
  else c

/-- `DocumentController.prev_page()`. -/
def DocumentController.prev_page (c : DocumentController) : DocumentController :=
  if c.doc.isSome ∧ 0 < c.page_index then
    { c with page_index := c.page_index - 1 }
  else c

/-- `DocumentController.clamp_page_index()`. -/
def DocumentController.clamp_page_index (c : DocumentController) : DocumentController :=
  if ¬ c.doc.isSome then { c with page_index := 0 }
  else { c with page_index := pyminZ c.page_index ((c.page_count : ℤ) - 1) }

/-- The page-index invariant of §3 of the spec: `0 ≤ index < page_count`
while a document is open, and index 0 otherwise. -/
def DocumentController.PageIndexInv (c : DocumentController) : Prop :=
  match c.doc with
  | none => c.page_index = 0
  | some n => 0 ≤ c.page_index ∧ c.page_index < (n : ℤ)

/-- Errors of `operations.py`: the repository's own `PDFOperationError`,
and the raw out-of-range error a document raises for a bad page index. -/
inductive PdfError where
  | pdfOperationError (msg : String)
  | indexError (msg : String)
deriving DecidableEq, Repr

/-- A PDF document as `operations.insert_image` observes it (the parameter
is duck-typed; the tests drive it with stand-in documents): a page count,
plus the record of images inserted so far (page index, rectangle, filename). -/
structure PdfDocument where
  page_count : ℕ
  inserted : List (ℕ × Rect × String)
deriving DecidableEq, Repr

/-- `doc.load_page(page_index)` as `insert_image` relies on it: an index
`≥ len(doc)` raises the raw out-of-range error (the contract the
repository's test double `OutOfRangeDoc` encodes); a good index yields the
page, identified here by its index. -/
def PdfDocument.load_page (doc : PdfDocument) (page_index : ℕ) : Except PdfError ℕ :=
  if page_index < doc.page_count then .ok page_index
  else .error (.indexError "page out of range")

/-- `config.DEFAULT_INSERT_RECT = fitz.Rect(36, 36, 300, 300)`. -/
def DEFAULT_INSERT_RECT : Rect := ⟨36, 36, 300, 300⟩

/-- `operations.insert_image(doc, image_path, page_index, rect)`.
`image_path_exists` stands for `image_path.exists()`.  The returned document
is the post-call document: it equals the input whenever an error comes back.
The `except IndexError` clause wraps the raw out-of-range error into a
`PDFOperationError`; `page.insert_image(...)` is recorded on the page. -/
def insert_image (doc : PdfDocument) (image_path : String) (image_path_exists : Bool)
    (page_index : ℕ) (rect : Option Rect) : PdfDocument × Except PdfError Rect :=
  if ¬ image_path_exists then
    (doc, .error (.pdfOperationError ("Image path " ++ image_path ++ " does not exist.")))
  else
    match doc.load_page page_index with
    | .error (.indexError _) =>
      (doc, .error (.pdfOperationError ("Page " ++ toString page_index ++
        " is out of range for document with " ++ toString doc.page_count ++ " page(s).")))
    | .error e => (doc, .error e)
    | .ok page =>
      let target_rect :=
        match rect with
        | some r => r
        | none => DEFAULT_INSERT_RECT
      ({ doc with inserted := doc.inserted ++ [(page, target_rect, image_path)] },
       .ok target_rect)

theorem pymax_eq_max (a b : ℚ) : pymax a b = max a b := by
  unfold pymax
  rcases lt_or_le a b with h | h
  · simp [h, max_eq_right h.le]
  · simp [not_lt.mpr h, max_eq_left h]

theorem pymin_eq_min (a b : ℚ) : pymin a b = min a b := by
  unfold pymin
  rcases lt_or_le b a with h | h
  · simp [h, min_eq_right h.le]
  · simp [not_lt.mpr h, min_eq_left h]

/-- Closed form of `clamp_rect`: the top-left lands at
`max bounds.topleft (min rect.topleft (bounds.bottomright - rect.size))`,
and the bottom-right keeps the rectangle's size. -/
theorem clamp_rect_eq (r b : Rect) :
    clamp_rect r b =
      ⟨max b.x0 (min r.x0 (b.x1 - r.width)),
       max b.y0 (min r.y0 (b.y1 - r.height)),
       max b.x0 (min r.x0 (b.x1 - r.width)) + r.width,
       max b.y0 (min r.y0 (b.y1 - r.height)) + r.height⟩ := by
  unfold clamp_rect pymax
  ext <;>
    · simp only [Rect.width, Rect.height]
      split_ifs <;> dsimp only at * <;>
        rw [max_def, min_def] <;> split_ifs <;> linarith

/-- Clamping never changes the width. -/
theorem clamp_rect_width (r b : Rect) : (clamp_rect r b).width = r.width := by
  rw [clamp_rect_eq]
  simp [Rect.width]

/-- Clamping never changes the height. -/
theorem clamp_rect_height (r b : Rect) : (clamp_rect r b).height = r.height := by
  rw [clamp_rect_eq]
  simp [Rect.height]

/-- C1: `clamp_rect` only translates: width and height are always those of
the input rectangle; when the bounds are at least as wide and tall as the
rectangle the result lies inside the bounds; when the bounds are strictly
smaller in both dimensions the result's top-left is pinned to the bounds'
top-left and its bottom-right exceeds the bounds' bottom-right. -/
theorem clamp_rect_spec :
    (∀ r b : Rect, (clamp_rect r b).width = r.width ∧ (clamp_rect r b).height = r.height) ∧
    (∀ r b : Rect, r.width ≤ b.width → r.height ≤ b.height →
      b.x0 ≤ (clamp_rect r b).x0 ∧ b.y0 ≤ (clamp_rect r b).y0 ∧
      (clamp_rect r b).x1 ≤ b.x1 ∧ (clamp_rect r b).y1 ≤ b.y1) ∧
    (∀ r b : Rect, b.width < r.width → b.height < r.height →
      (clamp_rect r b).x0 = b.x0 ∧ (clamp_rect r b).y0 = b.y0 ∧
      b.x1 < (clamp_rect r b).x1 ∧ b.y1 < (clamp_rect r b).y1) := by
  refine ⟨fun r b => ⟨clamp_rect_width r b, clamp_rect_height r b⟩, ?_, ?_⟩
  · intro r b hw hh
    rw [clamp_rect_eq]
    simp only [Rect.width, Rect.height] at hw hh ⊢
    refine ⟨le_max_left _ _, le_max_left _ _, ?_, ?_⟩
    · have h1 : min r.x0 (b.x1 - (r.x1 - r.x0)) ≤ b.x1 - (r.x1 - r.x0) := min_le_right _ _
      have h2 : b.x0 ≤ b.x1 - (r.x1 - r.x0) := by linarith
      have := max_le h2 h1
      linarith
    · have h1 : min r.y0 (b.y1 - (r.y1 - r.y0)) ≤ b.y1 - (r.y1 - r.y0) := min_le_right _ _
      have h2 : b.y0 ≤ b.y1 - (r.y1 - r.y0) := by linarith
      have := max_le h2 h1
      linarith
  · intro r b hw hh
    rw [clamp_rect_eq]
    simp only [Rect.width, Rect.height] at hw hh ⊢
    have hx : min r.x0 (b.x1 - (r.x1 - r.x0)) ≤ b.x0 := by
      have h1 : min r.x0 (b.x1 - (r.x1 - r.x0)) ≤ b.x1 - (r.x1 - r.x0) := min_le_right _ _
      linarith
    have hy : min r.y0 (b.y1 - (r.y1 - r.y0)) ≤ b.y0 := by
      have h1 : min r.y0 (b.y1 - (r.y1 - r.y0)) ≤ b.y1 - (r.y1 - r.y0) := min_le_right _ _
      linarith
    rw [max_eq_left hx, max_eq_left hy]
    exact ⟨rfl, rfl, by linarith, by linarith⟩

/-- Witness for C1 at concrete rectangles: a 100-wide rectangle pushed back
inside a 200-wide page, and a 300-by-250 rectangle against the same page. -/
theorem clamp_rect_spec_witness :
    ((0 : ℚ) ≤ (clamp_rect ⟨150, 150, 250, 250⟩ ⟨0, 0, 200, 200⟩).x0 ∧
     (0 : ℚ) ≤ (clamp_rect ⟨150, 150, 250, 250⟩ ⟨0, 0, 200, 200⟩).y0 ∧
     (clamp_rect ⟨150, 150, 250, 250⟩ ⟨0, 0, 200, 200⟩).x1 ≤ 200 ∧
     (clamp_rect ⟨150, 150, 250, 250⟩ ⟨0, 0, 200, 200⟩).y1 ≤ 200) ∧
    ((clamp_rect ⟨10, 10, 310, 260⟩ ⟨0, 0, 200, 200⟩).x0 = 0 ∧
     (clamp_rect ⟨10, 10, 310, 260⟩ ⟨0, 0, 200, 200⟩).y0 = 0 ∧
     (200 : ℚ) < (clamp_rect ⟨10, 10, 310, 260⟩ ⟨0, 0, 200, 200⟩).x1 ∧
     (200 : ℚ) < (clamp_rect ⟨10, 10, 310, 260⟩ ⟨0, 0, 200, 200⟩).y1) := by
  constructor
  · exact clamp_rect_spec.2.1 ⟨150, 150, 250, 250⟩ ⟨0, 0, 200, 200⟩
      (by norm_num [Rect.width]) (by norm_num [Rect.height])
  · exact clamp_rect_spec.2.2 ⟨10, 10, 310, 260⟩ ⟨0, 0, 200, 200⟩
      (by norm_num [Rect.width]) (by norm_num [Rect.height])

/-- Re-clamping a scalar already clamped into `[lo, hiw]`-style form is the
identity: the scalar core of the idempotence of `clamp_rect`. -/
theorem clamp_scalar_idem (v lo hiw : ℚ) :
    max lo (min (max lo (min v hiw)) hiw) = max lo (min v hiw) := by
  rcases le_total lo (min v hiw) with h | h
  · rw [max_eq_right h, min_eq_left (min_le_right v hiw), max_eq_right h]
  · rw [max_eq_left h]
    rcases le_total lo hiw with h2 | h2
    · rw [min_eq_left h2, max_self]
    · rw [min_eq_right h2, max_eq_left h2]

/-- C10: `clamp_rect` is idempotent for every rectangle and bounds, the
bounds smaller than the rectangle included. -/
theorem clamp_rect_idem (r b : Rect) :
    clamp_rect (clamp_rect r b) b = clamp_rect r b := by
  rw [clamp_rect_eq r b, clamp_rect_eq]
  simp only [Rect.width, Rect.height]
  have hx : max b.x0 (min r.x0 (b.x1 - (r.x1 - r.x0))) + (r.x1 - r.x0) -
      max b.x0 (min r.x0 (b.x1 - (r.x1 - r.x0))) = r.x1 - r.x0 := by ring
  have hy : max b.y0 (min r.y0 (b.y1 - (r.y1 - r.y0))) + (r.y1 - r.y0) -
      max b.y0 (min r.y0 (b.y1 - (r.y1 - r.y0))) = r.y1 - r.y0 := by ring
  rw [hx, hy, clamp_scalar_idem r.x0 b.x0 (b.x1 - (r.x1 - r.x0)),
      clamp_scalar_idem r.y0 b.y0 (b.y1 - (r.y1 - r.y0))]

/-- C2: mapping the corners of a canvas rectangle to PDF space with
`canvas_to_pdf` and mapping the resulting PDF rectangle back with
`pdf_rect_to_canvas_rect` returns the original canvas rectangle, for any
page rectangle and any scale with both components nonzero. -/
theorem canvas_pdf_round_trip (cx0 cy0 cx1 cy1 : ℚ) (page_rect : Rect) (sx sy : ℚ)
    (hsx : sx ≠ 0) (hsy : sy ≠ 0) :
    pdf_rect_to_canvas_rect
      ⟨(canvas_to_pdf cx0 cy0 page_rect (sx, sy)).1,
       (canvas_to_pdf cx0 cy0 page_rect (sx, sy)).2,
       (canvas_to_pdf cx1 cy1 page_rect (sx, sy)).1,
       (canvas_to_pdf cx1 cy1 page_rect (sx, sy)).2⟩ page_rect (sx, sy)
      = (cx0, cy0, cx1, cy1) := by
  simp only [pdf_rect_to_canvas_rect, canvas_to_pdf, Prod.mk.injEq]
  refine ⟨?_, ?_, ?_, ?_⟩ <;> field_simp

/-- Witness for C2 at canvas rectangle (1, 2, 3, 4), page rectangle
(5, 6, 7, 8) and scale (2, 3). -/
theorem canvas_pdf_round_trip_witness :
    pdf_rect_to_canvas_rect
      ⟨(canvas_to_pdf 1 2 ⟨5, 6, 7, 8⟩ (2, 3)).1,
       (canvas_to_pdf 1 2 ⟨5, 6, 7, 8⟩ (2, 3)).2,
       (canvas_to_pdf 3 4 ⟨5, 6, 7, 8⟩ (2, 3)).1,
       (canvas_to_pdf 3 4 ⟨5, 6, 7, 8⟩ (2, 3)).2⟩ ⟨5, 6, 7, 8⟩ (2, 3)
      = (1, 2, 3, 4) :=
  canvas_pdf_round_trip 1 2 3 4 ⟨5, 6, 7, 8⟩ 2 3 (by norm_num) (by norm_num)

/-- C3: the rectangle from `new_signature_rect` always has width
`max(10, min(max_width, page width))` and height `width × aspect`, the
aspect being `image_height / image_width`, or 1 when the image width is 0;
with `image_size = (100, 50)` and `max_width = 80` on a page at least
80 × 40, the result is 80 wide and 40 tall at every click position. -/
theorem new_signature_rect_spec :
    (∀ (cx cy : ℚ) (page_rect : Rect) (ps : ℚ × ℚ) (isz : ℕ × ℕ) (maxw : ℚ),
      (new_signature_rect cx cy page_rect ps isz maxw).width
        = pymax 10 (pymin maxw page_rect.width) ∧
      (new_signature_rect cx cy page_rect ps isz maxw).height
        = pymax 10 (pymin maxw page_rect.width) *
            (if isz.1 ≠ 0 then (isz.2 : ℚ) / (isz.1 : ℚ) else 1)) ∧
    (∀ (cx cy : ℚ) (page_rect : Rect) (ps : ℚ × ℚ),
      80 ≤ page_rect.width → 40 ≤ page_rect.height →
      (new_signature_rect cx cy page_rect ps (100, 50) 80).width = 80 ∧
      (new_signature_rect cx cy page_rect ps (100, 50) 80).height = 40) := by
  have hgen : ∀ (cx cy : ℚ) (page_rect : Rect) (ps : ℚ × ℚ) (isz : ℕ × ℕ) (maxw : ℚ),
      (new_signature_rect cx cy page_rect ps isz maxw).width
        = pymax 10 (pymin maxw page_rect.width) ∧
      (new_signature_rect cx cy page_rect ps isz maxw).height
        = pymax 10 (pymin maxw page_rect.width) *
            (if isz.1 ≠ 0 then (isz.2 : ℚ) / (isz.1 : ℚ) else 1) := by
    intro cx cy page_rect ps isz maxw
    unfold new_signature_rect
    rw [clamp_rect_width, clamp_rect_height]
    constructor
    · simp [Rect.width]
    · simp [Rect.height]
  refine ⟨hgen, ?_⟩
  intro cx cy page_rect ps hw _hh
  have h := hgen cx cy page_rect ps (100, 50) 80
  have hwidth : pymax 10 (pymin 80 page_rect.width) = 80 := by
    rw [pymax_eq_max, pymin_eq_min, min_eq_left hw, max_eq_right (by norm_num)]
  rw [h.1, h.2, hwidth]
  norm_num

/-- Witness for C3 on the page (0, 0, 100, 200) with click (5, 5) and
scale (1, 1). -/
theorem new_signature_rect_spec_witness :
    (new_signature_rect 5 5 ⟨0, 0, 100, 200⟩ (1, 1) (100, 50) 80).width = 80 ∧
    (new_signature_rect 5 5 ⟨0, 0, 100, 200⟩ (1, 1) (100, 50) 80).height = 40 :=
  new_signature_rect_spec.2 5 5 ⟨0, 0, 100, 200⟩ (1, 1)
    (by norm_num [Rect.width]) (by norm_num [Rect.height])

/-- C5: `set_image` moves every state, Placed included, to ImageLoaded: the
image path is recorded and both the rectangle and the page index become
`None`. -/
theorem set_image_spec (c : SignatureController) (path : String) :
    (c.set_image path).image_path = some path ∧
    (c.set_image path).rect = none ∧
    (c.set_image path).page_index = none :=
  ⟨rfl, rfl, rfl⟩

/-- C7: with no placed rectangle, `move_to` returns `None` and changes
nothing; with a placed rectangle it returns the rectangle translated so its
top-left is the canvas point converted to PDF space, clamped to the page
bounds, stores it, and the result keeps the old width and height. -/
theorem move_to_spec :
    (∀ (c : SignatureController) (cx cy : ℚ) (pr : Rect) (ps : ℚ × ℚ),
      c.rect = none →
      (c.move_to cx cy pr ps).2 = none ∧ (c.move_to cx cy pr ps).1 = c) ∧
    (∀ (c : SignatureController) (r : Rect) (cx cy : ℚ) (pr : Rect) (ps : ℚ × ℚ),
      c.rect = some r →
      (c.move_to cx cy pr ps).2 =
        some (clamp_rect ⟨cx * ps.1 + pr.x0, cy * ps.2 + pr.y0,
                          cx * ps.1 + pr.x0 + r.width, cy * ps.2 + pr.y0 + r.height⟩ pr) ∧
      (c.move_to cx cy pr ps).1.rect = (c.move_to cx cy pr ps).2 ∧
      ∀ r2, (c.move_to cx cy pr ps).2 = some r2 →
        r2.width = r.width ∧ r2.height = r.height) := by
  constructor
  · intro c cx cy pr ps h
    unfold SignatureController.move_to
    rw [h]
    exact ⟨rfl, rfl⟩
  · intro c r cx cy pr ps h
    unfold SignatureController.move_to
    rw [h]
    refine ⟨rfl, rfl, ?_⟩
    intro r2 h2
    simp only [Option.some.injEq] at h2
    rw [← h2, clamp_rect_width, clamp_rect_height]
    constructor
    · simp [Rect.width]
    · simp [Rect.height]

/-- Witness for C7: the empty controller is unchanged, and a controller
holding (50, 50, 100, 100) moved to canvas point (30, 40) at scale (1, 1)
on the page (0, 0, 200, 200) gets the stored clamped translate. -/
theorem move_to_spec_witness :
    ((SignatureController.mk 200 none none none).move_to 30 40 ⟨0, 0, 200, 200⟩ (1, 1)).2
        = none ∧
    ((SignatureController.mk 200 (some "sig.png") (some ⟨50, 50, 100, 100⟩)
        (some 0)).move_to 30 40 ⟨0, 0, 200, 200⟩ (1, 1)).2
      = some (clamp_rect ⟨30 * 1 + 0, 40 * 1 + 0, 30 * 1 + 0 + (Rect.mk 50 50 100 100).width,
          40 * 1 + 0 + (Rect.mk 50 50 100 100).height⟩ ⟨0, 0, 200, 200⟩) := by
  constructor
  · exact (move_to_spec.1 (SignatureController.mk 200 none none none)
      30 40 ⟨0, 0, 200, 200⟩ (1, 1) rfl).1
  · exact (move_to_spec.2 (SignatureController.mk 200 (some "sig.png")
      (some ⟨50, 50, 100, 100⟩) (some 0)) ⟨50, 50, 100, 100⟩
      30 40 ⟨0, 0, 200, 200⟩ (1, 1) rfl).1

/-- C8: when the injected PDF opener raises, `DocumentController.open`
propagates that error and leaves `doc`, `current_file` and `page_index`
exactly as they were, while `reload` swallows the failure into a `None`
result with the same untouched state. -/
theorem open_error_spec :
    (∀ (c : DocumentController) (path : String) (e : String),
      (c.openDoc path (.error e)).1 = c ∧
      (c.openDoc path (.error e)).2 = .error e) ∧
    (∀ (c : DocumentController) (path : String) (e : String),
      c.reload path (.error e) = (c, none)) :=
  ⟨fun _ _ _ => ⟨rfl, rfl⟩, fun _ _ _ => rfl⟩

/-- C4: on a placed rectangle at least `min_width` wide and `min_height`
tall, `resize` yields (for every handle and pointer position) a rectangle
that is still at least `min_width` wide and `min_height` tall, obtained as
the edge-specific update clamped to page bounds; with handle "w",
`pdf_x = 10`, page (0, 0, 200, 200) and `min_width = 30` on the rectangle
(50, 50, 100, 100) the result has `x0 = 10` and width at least 30. -/
theorem resize_spec :
    (∀ (c : SignatureController) (r : Rect) (handle : String) (pdf_x pdf_y : ℚ)
      (page_rect : Rect) (min_width min_height : ℚ),
      c.rect = some r → min_width ≤ r.width → min_height ≤ r.height →
      ∃ r2, (c.resize handle pdf_x pdf_y page_rect min_width min_height).2 = some r2 ∧
        min_width ≤ r2.width ∧ min_height ≤ r2.height) ∧
    (∀ (c : SignatureController),
      c.rect = some ⟨50, 50, 100, 100⟩ →
      ∃ r2, (c.resize "w" 10 60 ⟨0, 0, 200, 200⟩ 30 20).2 = some r2 ∧
        r2.x0 = 10 ∧ 30 ≤ r2.width) := by
  constructor
  · intro c r handle pdf_x pdf_y page_rect min_width min_height h hw hh
    unfold SignatureController.resize
    rw [h]
    refine ⟨_, rfl, ?_, ?_⟩ <;>
      simp only [clamp_rect_width, clamp_rect_height] <;>
      split_ifs <;>
      simp only [Rect.width, Rect.height, pymin_eq_min, pymax_eq_max] at hw hh ⊢ <;>
      linarith [min_le_right pdf_x (r.x1 - min_width),
        min_le_right pdf_y (r.y1 - min_height),
        le_max_right pdf_x (r.x0 + min_width),
        le_max_right pdf_y (r.y0 + min_height)]
  · intro c h
    unfold SignatureController.resize
    rw [h]
    refine ⟨_, rfl, ?_, ?_⟩ <;>
      · simp only [String.reduceEq, if_false, if_true, reduceIte]
        norm_num [clamp_rect, pymin, pymax, Rect.width]

/-- Witness for C4: an east-handle drag to the right page edge on a
60 × 50 placement, and the spec's west-handle example on (50, 50, 100, 100). -/
theorem resize_spec_witness :
    (∃ r2, ((SignatureController.mk 200 (some "sig.png") (some ⟨0, 0, 60, 50⟩)
        (some 0)).resize "e" 200 0 ⟨0, 0, 200, 200⟩ 20 20).2 = some r2 ∧
        (20 : ℚ) ≤ r2.width ∧ (20 : ℚ) ≤ r2.height) ∧
    (∃ r2, ((SignatureController.mk 200 (some "sig.png") (some ⟨50, 50, 100, 100⟩)
        (some 0)).resize "w" 10 60 ⟨0, 0, 200, 200⟩ 30 20).2 = some r2 ∧
        r2.x0 = 10 ∧ (30 : ℚ) ≤ r2.width) :=
  ⟨resize_spec.1 _ ⟨0, 0, 60, 50⟩ "e" 200 0 ⟨0, 0, 200, 200⟩ 20 20 rfl
      (by norm_num [Rect.width]) (by norm_num [Rect.height]),
   resize_spec.2 _ rfl⟩

/-- C6: the page-index invariant (`0 ≤ index < page_count` with a document
open, index 0 otherwise) is preserved by `next_page`, `prev_page`,
`clamp_page_index`, `open` (its failure path included), `reload` and `close`; moreover
`next_page` at the last index and `prev_page` at index 0 are no-ops, `open`
resets the index to 0, and `clamp_page_index` after `close` yields 0. -/
theorem document_cursor_spec :
    (∀ c : DocumentController, c.PageIndexInv → c.next_page.PageIndexInv) ∧
    (∀ c : DocumentController, c.PageIndexInv → c.prev_page.PageIndexInv) ∧
    (∀ c : DocumentController, c.PageIndexInv → c.clamp_page_index.PageIndexInv) ∧
    (∀ (c : DocumentController) (path : String) (n : ℕ), 1 ≤ n →
      (c.openDoc path (.ok n)).1.PageIndexInv ∧
      (c.openDoc path (.ok n)).1.page_index = 0) ∧
    (∀ (c : DocumentController) (path : String) (e : String),
      c.PageIndexInv → (c.openDoc path (.error e)).1.PageIndexInv) ∧
    (∀ (c : DocumentController) (path : String) (n : ℕ), 1 ≤ n →
      (c.reload path (.ok n)).1.PageIndexInv) ∧
    (∀ (c : DocumentController) (path : String) (e : String),
      c.PageIndexInv → (c.reload path (.error e)).1.PageIndexInv) ∧
    (∀ c : DocumentController, c.close.PageIndexInv) ∧
    (∀ (c : DocumentController) (n : ℕ), c.doc = some n →
      c.page_index = (n : ℤ) - 1 → c.next_page = c) ∧
    (∀ c : DocumentController, c.page_index = 0 → c.prev_page = c) ∧
    (∀ c : DocumentController, c.close.clamp_page_index.page_index = 0) := by
  have hnext : ∀ c : DocumentController, c.PageIndexInv → c.next_page.PageIndexInv := by
    intro c h
    unfold DocumentController.next_page
    cases hd : c.doc with
    | none =>
      simp only [DocumentController.PageIndexInv, hd] at h ⊢
      simp [hd, h]
    | some n =>
      simp only [DocumentController.PageIndexInv, hd] at h
      simp only [hd, DocumentController.page_count, Option.isSome_some, true_and]
      split_ifs with hcond <;>
        simp only [DocumentController.PageIndexInv, hd] <;> omega
  have hprev : ∀ c : DocumentController, c.PageIndexInv → c.prev_page.PageIndexInv := by
    intro c h
    unfold DocumentController.prev_page
    cases hd : c.doc with
    | none =>
      simp only [DocumentController.PageIndexInv, hd] at h ⊢
      simp [hd, h]
    | some n =>
      simp only [DocumentController.PageIndexInv, hd] at h
      simp only [hd, Option.isSome_some, true_and]
      split_ifs with hcond <;>
        simp only [DocumentController.PageIndexInv, hd] <;> omega
  have hopen : ∀ (c : DocumentController) (path : String) (n : ℕ), 1 ≤ n →
      (c.openDoc path (.ok n)).1.PageIndexInv ∧
      (c.openDoc path (.ok n)).1.page_index = 0 := by
    intro c path n hn
    unfold DocumentController.openDoc
    refine ⟨?_, rfl⟩
    simp only [DocumentController.PageIndexInv]
    omega
  refine ⟨hnext, hprev, ?_, hopen, ?_, ?_, ?_, ?_, ?_, ?_, ?_⟩
  · intro c h
    unfold DocumentController.clamp_page_index
    cases hd : c.doc with
    | none =>
      simp only [DocumentController.PageIndexInv, hd] at h ⊢
      simp [hd]
    | some n =>
      simp only [DocumentController.PageIndexInv, hd] at h
      simp only [hd, Option.isSome_some, not_true_eq_false, if_false,
        DocumentController.PageIndexInv, DocumentController.page_count, pyminZ]
      split_ifs <;> omega
  · intro c path e h
    exact h
  · intro c path n hn
    unfold DocumentController.reload
    simp only [DocumentController.openDoc]
    exact (hopen c path n hn).1
  · intro c path e h
    unfold DocumentController.reload
    simp only [DocumentController.openDoc]
    exact h
  · intro c
    simp [DocumentController.close, DocumentController.PageIndexInv]
  · intro c n hd hlast
    unfold DocumentController.next_page
    rw [if_neg]
    simp only [hd, DocumentController.page_count, Option.isSome_some, true_and, hlast]
    omega
  · intro c h
    unfold DocumentController.prev_page
    rw [if_neg]
    simp only [h]
    omega
  · intro c
    simp [DocumentController.close, DocumentController.clamp_page_index]

/-- Witness for C6: a two-page document at index 0 stepped forward, and an
empty controller opening a one-page document. -/
theorem document_cursor_spec_witness :
    (DocumentController.mk (some 2) (some "f.pdf") 0).next_page.PageIndexInv ∧
    ((DocumentController.mk none none 0).openDoc "f.pdf" (.ok 1)).1.PageIndexInv ∧
    ((DocumentController.mk none none 0).openDoc "f.pdf" (.ok 1)).1.page_index = 0 := by
  refine ⟨document_cursor_spec.1 _ ?_,
    (document_cursor_spec.2.2.2.1 _ "f.pdf" 1 (by norm_num)).1,
    (document_cursor_spec.2.2.2.1 _ "f.pdf" 1 (by norm_num)).2⟩
  simp only [DocumentController.PageIndexInv]
  norm_num

/-- C9: for every document and every page index at least the page count,
`insert_image` leaves the document unmodified and returns a
`PDFOperationError` rather than the raw out-of-range error; when the image
path exists, the message is the descriptive page-range message wrapping the
out-of-range fault. -/
theorem insert_image_out_of_range_spec (doc : PdfDocument) (image_path : String)
    (image_path_exists : Bool) (page_index : ℕ) (rect : Option Rect)
    (h : doc.page_count ≤ page_index) :
    (insert_image doc image_path image_path_exists page_index rect).1 = doc ∧
    (∃ msg, (insert_image doc image_path image_path_exists page_index rect).2
        = .error (.pdfOperationError msg)) ∧
    (image_path_exists = true →
      (insert_image doc image_path image_path_exists page_index rect).2
        = .error (.pdfOperationError ("Page " ++ toString page_index ++
            " is out of range for document with " ++ toString doc.page_count ++
            " page(s)."))) := by
  have hlt : ¬ page_index < doc.page_count := not_lt.mpr h
  unfold insert_image PdfDocument.load_page
  cases image_path_exists with
  | false =>
    refine ⟨?_, ⟨"Image path " ++ image_path ++ " does not exist.", ?_⟩,
      fun hcontra => by cases hcontra⟩ <;> simp
  | true =>
    refine ⟨?_, ⟨"Page " ++ toString page_index ++ " is out of range for document with "
        ++ toString doc.page_count ++ " page(s).", ?_⟩, fun _ => ?_⟩ <;>
      simp [hlt]

/-- Witness for C9: inserting on page 5 of a one-page document. -/
theorem insert_image_out_of_range_spec_witness :
    (insert_image ⟨1, []⟩ "sig.png" true 5 none).1 = ⟨1, []⟩ ∧
    (∃ msg, (insert_image ⟨1, []⟩ "sig.png" true 5 none).2
        = .error (.pdfOperationError msg)) ∧
    (true = true →
      (insert_image ⟨1, []⟩ "sig.png" true 5 none).2
        = .error (.pdfOperationError ("Page " ++ toString (5 : ℕ) ++
            " is out of range for document with " ++
            toString (PdfDocument.mk 1 []).page_count ++ " page(s)."))) :=
  insert_image_out_of_range_spec ⟨1, []⟩ "sig.png" true 5 none (by decide)

end PdfSig
